import Mathlib

/-!
# Verification of the ARUM banner-generation pipeline

Shallow embedding of the layered image-compositing pipeline of this
repository (`app.py`, `helpers.py`, `transformers.py`) and proofs about it.

Modelling conventions:
* Python floats are modelled as rationals (`ℚ`); every numeric fact we
  prove at a concrete input uses values (such as 1/2) that are exact in
  binary floating point, so the model and CPython agree there.
* Python `int(x)` truncates toward zero; this is `pyInt` below.
* `PIL.Image.alpha_composite(im1, im2)` composites `im2` (source) over
  `im1` (destination); its exact per-pixel integer arithmetic from
  Pillow's `AlphaComposite.c` (`PRECISION_BITS = 7`, rounded division by
  255 via the shift trick) is embedded in `compositePx`.  In particular a
  source pixel with alpha 0 copies the destination pixel verbatim.
* `PIL.ImageFilter.GaussianBlur` is external library code whose kernel
  no claim depends on; it enters the model as an explicit function
  parameter `B : BlurFn`.  Theorems that need the library guarantee that
  blurring preserves the image size take it as a hypothesis.
* Random number generation (`np.random.randint`, `np.random.normal`,
  `random.randint`) is modelled by an explicit field of samples `TexRng`
  passed to the pipeline; two runs with the same field are compared.
-/

/-- An RGBA pixel; channels are naturals (in-range pixels have all four
channels ≤ 255). -/
structure Pixel where
  r : Nat
  g : Nat
  b : Nat
  a : Nat
deriving DecidableEq, Repr

/-- An RGB color as produced by hex parsing (`tuple(int(c[i:i+2], 16) ...)`). -/
structure Color where
  r : Nat
  g : Nat
  b : Nat
deriving DecidableEq, Repr

/-- A raster image: `PIL.Image` in mode RGBA, with a total pixel map
(only coordinates `x < width`, `y < height` are meaningful). -/
structure Img where
  width : Nat
  height : Nat
  px : Nat → Nat → Pixel

/-- Python `int()` applied to a float/rational: truncation toward zero. -/
def pyInt (q : ℚ) : ℤ :=
  if 0 ≤ q then ⌊q⌋ else -⌊-q⌋

/-- `int()` truncation, returned as a natural (all uses in the pipeline are
on nonnegative values). -/
def pyIntNat (q : ℚ) : Nat :=
  (pyInt q).toNat

/-- Value of one hex digit, as accepted by Python `int(s, 16)`. -/
def hexDigit (c : Char) : Option Nat :=
  if '0' ≤ c ∧ c ≤ '9' then some (c.toNat - '0'.toNat)
  else if 'a' ≤ c ∧ c ≤ 'f' then some (c.toNat - 'a'.toNat + 10)
  else if 'A' ≤ c ∧ c ≤ 'F' then some (c.toNat - 'A'.toNat + 10)
  else none

/-- Two-hex-digit byte at position `i` of the character list: models
Python `int(s[i:i+2], 16)` (`none` models the `ValueError` raised on a
malformed or too-short slice). -/
def hexByte (s : List Char) (i : Nat) : Option Nat := do
  let c1 ← s[i]?
  let c2 ← s[i+1]?
  let d1 ← hexDigit c1
  let d2 ← hexDigit c2
  pure (16 * d1 + d2)

/-- Models `tuple(int(color[i:i+2], 16) for i in (1, 3, 5))`, the hex-color
parse used throughout `transformers.py` and `helpers.py`. -/
def parseColor (s : String) : Option Color := do
  let cs := s.data
  let r ← hexByte cs 1
  let g ← hexByte cs 3
  let b ← hexByte cs 5
  pure ⟨r, g, b⟩

/-- Pillow's rounded-division-by-255 shift trick
(`SHIFTFORDIV255(a) = ((a >> 8) + a) >> 8`). -/
def shiftForDiv255 (a : Nat) : Nat :=
  ((a >>> 8) + a) >>> 8

/-- One pixel of `PIL.Image.alpha_composite(dst, src)` (source-over):
exact embedding of Pillow's `AlphaComposite.c` integer arithmetic with
`PRECISION_BITS = 7`.  A fully transparent source pixel copies the
destination pixel verbatim (Pillow's fast path). -/
def compositePx (dst src : Pixel) : Pixel :=
  if src.a = 0 then dst
  else
    let blend := dst.a * (255 - src.a)
    let outa255 := src.a * 255 + blend
    let coef1 := src.a * 255 * 255 * 128 / outa255
    let coef2 := 255 * 128 - coef1
    let mix := fun (s d : Nat) => shiftForDiv255 (s * coef1 + d * coef2 + 128 * 128) >>> 7
    ⟨mix src.r dst.r, mix src.g dst.g, mix src.b dst.b, shiftForDiv255 (outa255 + 128)⟩

/-- `PIL.Image.alpha_composite(dst, src)`: `src` over `dst`, pixelwise.
(Pillow raises `ValueError` on a size mismatch; every call in the
pipeline passes two buffers of the canvas size.) -/
def alphaComposite (dst src : Img) : Img :=
  ⟨dst.width, dst.height, fun x y => compositePx (dst.px x y) (src.px x y)⟩

/-- `PIL.Image.new('RGBA', (w, h), c)`: constant image. -/
def imageNew (w h : Nat) (c : Pixel) : Img :=
  ⟨w, h, fun _ _ => c⟩

/-- The blur primitive (`PIL.ImageFilter.GaussianBlur`), supplied as an
explicit parameter of the development; the library guarantees it
preserves the image size. -/
def BlurFn : Type := ℤ → Img → Img

/-- A size-preserving stand-in blur, used to instantiate theorems at
concrete inputs. -/
def idBlur : BlurFn := fun _ img => img

/-- `np.linspace(0, 1, n)` evaluated at index `i`: `i / (n - 1)` with the
single-sample case `n = 1` yielding the start value 0 (numpy performs no
division in that case). -/
def linFactor (n i : Nat) : ℚ :=
  if n ≤ 1 then 0 else (i : ℚ) / ((n : ℚ) - 1)

/-- The interpolation factor of the gradient array at pixel `(x, y)`:
constant along columns for `'horizontal'`, along rows otherwise
(`transformers.py` lines 38-44; any direction other than `'horizontal'`
takes the vertical branch). -/
def gradFactor (dir : String) (w h x y : Nat) : ℚ :=
  if dir = "horizontal" then linFactor w x else linFactor h y

/-- One channel of the gradient fill:
`int(start * (1 - factor) + end * factor)` (`transformers.py` 53-55). -/
def interpChannel (cStart cEnd : Nat) (f : ℚ) : Nat :=
  pyIntNat ((cStart : ℚ) * (1 - f) + (cEnd : ℚ) * f)

/-- The full-canvas gradient buffer built by `apply_gradient`
(`transformers.py` 46-56): every pixel fully opaque. -/
def gradientImage (c1 c2 : Color) (dir : String) (w h : Nat) : Img :=
  ⟨w, h, fun x y =>
    ⟨interpChannel c1.r c2.r (gradFactor dir w h x y),
     interpChannel c1.g c2.g (gradFactor dir w h x y),
     interpChannel c1.b c2.b (gradFactor dir w h x y),
     255⟩⟩

/-- The state of `BannerTransformer`: the construction-time dimensions and
the current image (`transformers.py` 12-20). -/
structure Transformer where
  width : Nat
  height : Nat
  image : Img

/-- `BannerTransformer.__init__`: records `image.size`. -/
def mkTransformer (img : Img) : Transformer :=
  Transformer.mk img.width img.height img

/-- `apply_gradient` on parsed colors (`transformers.py` 22-59): builds the
opaque gradient buffer and composites the existing canvas OVER it —
`Image.alpha_composite(gradient_image, self.image)` makes the gradient
the bottom operand. -/
def applyGradientC (c1 c2 : Color) (dir : String) (t : Transformer) : Transformer :=
  Transformer.mk t.width t.height
    (alphaComposite (gradientImage c1 c2 dir t.width t.height) t.image)

/-- `apply_overlay` on a parsed color (`transformers.py` 93-114): a flat
buffer of the color at alpha `int(255 * opacity)` is composited over the
canvas (`draw.rectangle` covers every pixel of the overlay buffer). -/
def applyOverlayC (c : Color) (opacity : ℚ) (t : Transformer) : Transformer :=
  Transformer.mk t.width t.height
    (alphaComposite t.image (imageNew t.width t.height ⟨c.r, c.g, c.b, pyIntNat (255 * opacity)⟩))

/-- The fields of random samples consumed by the texture generators:
`noise` models `np.random.randint(0, 255, ...)` (entries in [0, 254]),
`grain` models `np.random.normal(127, 20, ...)` before clipping, and
`paperBase` models `random.randint(200, 255)` per pixel. -/
structure TexRng where
  noise : Nat → Nat → Nat
  grain : Nat → Nat → ℚ
  paperBase : Nat → Nat → Nat

/-- `np.clip(v, 0, 255).astype(np.uint8)` on one sample. -/
def clip255 (q : ℚ) : Nat :=
  pyIntNat (max 0 (min 255 q))

/-- `_create_paper_texture` (`transformers.py` 222-241): an L-mode image of
uniform samples in [200, 255], smoothed by `GaussianBlur(1)`; the L mode
is modelled as replicated luminance at full alpha. -/
def createPaperTexture (B : BlurFn) (base : Nat → Nat → Nat) (w h : Nat) : Img :=
  B 1 ⟨w, h, fun x y => ⟨base x y, base x y, base x y, 255⟩⟩

/-- `apply_texture` (`transformers.py` 61-91).  The buffer starts as a blank
RGBA image; the three known kinds replace it by a generated luminance
image (converted to RGBA, i.e. replicated channels); any other kind
leaves the blank buffer.  `putalpha(int(255 * opacity))` then sets the
alpha uniformly, and the buffer is composited over the canvas. -/
def applyTextureC (B : BlurFn) (rng : TexRng) (kind : String) (opacity : ℚ)
    (t : Transformer) : Transformer :=
  let base : Img :=
    if kind = "noise" then
      ⟨t.width, t.height, fun x y => ⟨rng.noise x y, rng.noise x y, rng.noise x y, 255⟩⟩
    else if kind = "grain" then
      ⟨t.width, t.height, fun x y =>
        ⟨clip255 (rng.grain x y), clip255 (rng.grain x y), clip255 (rng.grain x y), 255⟩⟩
    else if kind = "paper" then
      createPaperTexture B rng.paperBase t.width t.height
    else imageNew t.width t.height ⟨0, 0, 0, 0⟩
  let alpha := pyIntNat (255 * opacity)
  let texture : Img := ⟨base.width, base.height, fun x y =>
    ⟨(base.px x y).r, (base.px x y).g, (base.px x y).b, alpha⟩⟩
  Transformer.mk t.width t.height (alphaComposite t.image texture)

/-- `apply_blur` (`transformers.py` 143-150). -/
def applyBlurC (B : BlurFn) (radius : ℤ) (t : Transformer) : Transformer :=
  Transformer.mk t.width t.height (B radius t.image)

/-- Membership of `(x, y)` in the rectangular outline drawn by
`draw.rectangle([(0, 0), (w-1, h-1)], outline=…, width=n)`: the stroke
is `n` pixels thick, flush with the edges, drawn inward; `n ≤ 0` draws
nothing. -/
def inBorder (n : ℤ) (w h x y : Nat) : Prop :=
  0 < n ∧ ((x : ℤ) < n ∨ (y : ℤ) < n ∨ (w : ℤ) ≤ x + n ∨ (h : ℤ) ≤ y + n)

instance (n : ℤ) (w h x y : Nat) : Decidable (inBorder n w h x y) := by
  unfold inBorder; infer_instance

/-- `apply_border` on a parsed color (`transformers.py` 184-202): draws the
outline directly into the canvas at full opacity, using the
construction-time dimensions. -/
def applyBorderC (n : ℤ) (c : Color) (t : Transformer) : Transformer :=
  Transformer.mk t.width t.height
    ⟨t.image.width, t.image.height, fun x y =>
      if inBorder n t.width t.height x y then ⟨c.r, c.g, c.b, 255⟩ else t.image.px x y⟩

/-- `shadow.paste(self.image, offset)` into a transparent buffer of the
canvas size (`transformers.py` 165-166): the image shifted by the
offset, clipped, transparent elsewhere. -/
def pasteShifted (img : Img) (dx dy : ℤ) : Img :=
  ⟨img.width, img.height, fun x y =>
    if dx ≤ (x : ℤ) ∧ (x : ℤ) < dx + img.width ∧ dy ≤ (y : ℤ) ∧ (y : ℤ) < dy + img.height then
      img.px ((x : ℤ) - dx).toNat ((y : ℤ) - dy).toNat
    else ⟨0, 0, 0, 0⟩⟩

/-- `apply_drop_shadow` on a parsed color (`transformers.py` 152-182):
paste the canvas shifted into a transparent buffer, blur it, recolor
every pixel to the shadow color keeping the (blurred) alpha, then
rebuild the canvas as transparent + shadow + original on top. -/
def applyDropShadowC (B : BlurFn) (offset : ℤ × ℤ) (c : Color) (blurRadius : ℤ)
    (t : Transformer) : Transformer :=
  let blurred := B blurRadius (pasteShifted t.image offset.1 offset.2)
  let recolored : Img := ⟨blurred.width, blurred.height, fun x y =>
    ⟨c.r, c.g, c.b, (blurred.px x y).a⟩⟩
  let final :=
    alphaComposite
      (alphaComposite (imageNew t.image.width t.image.height ⟨0, 0, 0, 0⟩) recolored)
      t.image
  Transformer.mk t.width t.height final

/-- `ImageEnhance.Brightness(img).enhance(f)`: blend with a black
degenerate image, scaling every channel (including alpha) by `f` with
float-to-int truncation. -/
def brightnessEnhance (f : ℚ) (img : Img) : Img :=
  ⟨img.width, img.height, fun x y =>
    ⟨pyIntNat (f * (img.px x y).r), pyIntNat (f * (img.px x y).g),
     pyIntNat (f * (img.px x y).b), pyIntNat (f * (img.px x y).a)⟩⟩

/-- `apply_glow` (`transformers.py` 204-220): blur a copy by `spread`,
scale its brightness by `intensity`, and composite the original canvas
over this glow underlay. -/
def applyGlowC (B : BlurFn) (spread : ℤ) (intensity : ℚ) (t : Transformer) : Transformer :=
  Transformer.mk t.width t.height
    (alphaComposite (brightnessEnhance intensity (B spread t.image)) t.image)

/-- A Python value stored in a preset's parameter dictionary. -/
inductive PVal where
  | intV (n : ℤ)
  | ratV (q : ℚ)
  | strV (s : String)
  | boolV (b : Bool)
  | pairV (a b : ℤ)
deriving DecidableEq, Repr

/-- A parameter dictionary, in insertion order. -/
def Params : Type := List (String × PVal)

/-- `d.get(k, default)` specialised to string values (all stored values
at the keys so read are strings). -/
def getStr (ps : Params) (k : String) (d : String) : String :=
  match ps.find? (fun e => e.1 == k) with
  | some (_, PVal.strV s) => s
  | _ => d

/-- `d.get(k, default)` specialised to integer values. -/
def getInt (ps : Params) (k : String) (d : ℤ) : ℤ :=
  match ps.find? (fun e => e.1 == k) with
  | some (_, PVal.intV n) => n
  | _ => d

/-- `d.get(k, default)` specialised to numeric (float or int) values. -/
def getNum (ps : Params) (k : String) (d : ℚ) : ℚ :=
  match ps.find? (fun e => e.1 == k) with
  | some (_, PVal.ratV q) => q
  | some (_, PVal.intV n) => (n : ℚ)
  | _ => d

/-- `d.get(k, default)` specialised to pair values (the shadow offset). -/
def getPair (ps : Params) (k : String) (d : ℤ × ℤ) : ℤ × ℤ :=
  match ps.find? (fun e => e.1 == k) with
  | some (_, PVal.pairV a b) => (a, b)
  | _ => d

/-- Errors raised by the pipeline: `ValueError` (mapped by the route to
HTTP 400) and `TypeError` (caught by the generic handler, HTTP 500). -/
inductive PyError where
  | valueError (msg : String)
  | typeError (msg : String)
deriving DecidableEq, Repr

/-- `apply_gradient(s, e, dir)` with string colors: hex parsing can raise
`ValueError` (`transformers.py` 35-36). -/
def applyGradientS (s e dir : String) (t : Transformer) : Except PyError Transformer :=
  match parseColor s, parseColor e with
  | some c1, some c2 => Except.ok (applyGradientC c1 c2 dir t)
  | _, _ => Except.error (PyError.valueError "invalid literal for int() with base 16")

/-- `apply_overlay(color, opacity)` with a string color. -/
def applyOverlayS (color : String) (opacity : ℚ) (t : Transformer) :
    Except PyError Transformer :=
  match parseColor color with
  | some c => Except.ok (applyOverlayC c opacity t)
  | none => Except.error (PyError.valueError "invalid literal for int() with base 16")

/-- `apply_border(width, color)` with a string color. -/
def applyBorderS (n : ℤ) (color : String) (t : Transformer) : Except PyError Transformer :=
  match parseColor color with
  | some c => Except.ok (applyBorderC n c t)
  | none => Except.error (PyError.valueError "invalid literal for int() with base 16")

/-- `apply_drop_shadow(offset, shadow_color, blur_radius)` with a string
color. -/
def applyDropShadowS (B : BlurFn) (offset : ℤ × ℤ) (color : String) (blurRadius : ℤ)
    (t : Transformer) : Except PyError Transformer :=
  match parseColor color with
  | some c => Except.ok (applyDropShadowC B offset c blurRadius t)
  | none => Except.error (PyError.valueError "invalid literal for int() with base 16")

/-- One iteration of the `apply_effects` loop (`transformers.py` 116-141):
dispatch on the effect name, reading each parameter with its documented
default; any unrecognized name falls through the `if`/`elif` chain and
does nothing. -/
def applyEffectEntry (B : BlurFn) (t : Transformer) (e : String × Params) :
    Except PyError Transformer :=
  if e.1 = "blur" then Except.ok (applyBlurC B (getInt e.2 "radius" 2) t)
  else if e.1 = "shadow" then
    applyDropShadowS B (getPair e.2 "offset" (5, 5)) (getStr e.2 "shadow_color" "#000000")
      (getInt e.2 "blur_radius" 3) t
  else if e.1 = "border" then
    applyBorderS (getInt e.2 "width" 2) (getStr e.2 "color" "#000000") t
  else if e.1 = "glow" then
    Except.ok (applyGlowC B (getInt e.2 "spread" 20) (getNum e.2 "intensity" (1/2)) t)
  else Except.ok t

/-- `apply_effects(effects)`: the entries of the (insertion-ordered)
dictionary applied in order. -/
def applyEffectsList (B : BlurFn) : List (String × Params) → Transformer →
    Except PyError Transformer
  | [], t => Except.ok t
  | e :: rest, t => (applyEffectEntry B t e).bind (applyEffectsList B rest)

/-- A style plan as returned by the `StylePresets` static methods: the
optional `gradient` / `texture` / `overlay` sub-dictionaries and the
`effects` dictionary, in the source's key order. -/
structure StylePlan where
  gradient : Option Params
  texture : Option Params
  overlay : Option Params
  effects : Option (List (String × Params))

/-- `StylePresets.modern()` (`transformers.py` 257-274). -/
def modernPlan : StylePlan :=
  StylePlan.mk
    (some [("start_color", PVal.strV "#4361ee"), ("end_color", PVal.strV "#3f37c9"),
           ("direction", PVal.strV "horizontal")])
    none
    none
    (some [("shadow", [("offset", PVal.pairV 5 5), ("blur_radius", PVal.intV 3)]),
           ("border", [("width", PVal.intV 0)])])

/-- `StylePresets.vintage()` (`transformers.py` 276-293).  Note the texture
sub-dictionary's key is `'type'`, while `apply_texture`'s parameter is
named `texture_type`. -/
def vintagePlan : StylePlan :=
  StylePlan.mk
    none
    (some [("type", PVal.strV "paper"), ("opacity", PVal.ratV (1/5))])
    (some [("color", PVal.strV "#f4a261"), ("opacity", PVal.ratV (3/10))])
    (some [("border", [("width", PVal.intV 5), ("color", PVal.strV "#e76f51")])])

/-- `StylePresets.minimalist()` (`transformers.py` 295-309). -/
def minimalistPlan : StylePlan :=
  StylePlan.mk
    (some [("start_color", PVal.strV "#ffffff"), ("end_color", PVal.strV "#f8f9fa"),
           ("direction", PVal.strV "vertical")])
    none
    none
    (some [("border", [("width", PVal.intV 2), ("color", PVal.strV "#2b2d42")])])

/-- `StylePresets.bold()` (`transformers.py` 311-325). -/
def boldPlan : StylePlan :=
  StylePlan.mk
    (some [("start_color", PVal.strV "#2b2d42"), ("end_color", PVal.strV "#8d99ae"),
           ("direction", PVal.strV "horizontal")])
    none
    none
    (some [("glow", [("spread", PVal.intV 20), ("intensity", PVal.ratV (3/5))])])

/-- An attribute of the `StylePresets` class as found by Python's
`getattr`.  Besides the four preset static methods, attribute lookup on
a class also finds members inherited from `object`/`type`.
`inheritedContainer` covers the callables that succeed with no
arguments and return a container without the plan keys (`mro`,
`__subclasses__` return lists, `__prepare__` returns an empty dict), so
the `'gradient' in ...` membership tests in `generate_banner` are all
false and the run produces a blank canvas.  `inheritedFailing` covers
every other inherited attribute: it is not callable (`__doc__` is a
string, `__dict__` a mappingproxy, `__bases__` a tuple, ...), or raises
when called with no arguments (`__init__`, `__str__`, `__dir__`, ...
need `self`; `type()` and `__instancecheck__` need arguments), or the
call returns a non-container that makes the membership test raise
(`__init_subclass__` returns `None`, `__call__` and `__base__` return
fresh non-iterable objects) — every such path ends in a `TypeError` in
`generate_banner` (HTTP 500). -/
inductive StyleAttr where
  | preset (p : StylePlan)
  | inheritedContainer
  | inheritedFailing

/-- A name shaped like a Python dunder: it starts and ends with two
underscores.  Every attribute a plain Python class has beyond its own
class-body definitions is either `mro` or dunder-shaped, so a style
name that is not a preset, not `mro` and not dunder-shaped is not an
attribute of `StylePresets` at all. -/
def isDunderName (name : String) : Bool :=
  (name.data.take 2 == ['_', '_']) && (name.data.reverse.take 2 == ['_', '_'])

/-- The inherited class attributes that, called with no arguments, return
a container without the plan keys: `StylePresets.mro()` and
`StylePresets.__subclasses__()` return lists, `StylePresets.__prepare__()`
returns an empty dict. -/
def inheritedContainerAttrs : List String :=
  ["mro", "__subclasses__", "__prepare__"]

/-- All other attributes a plain class has in CPython (union over
versions 3.8-3.13: the class body's implicit entries, `object`'s
methods, and `type`'s descriptors), each of which leads to a
`TypeError` in `generate_banner`.  In a CPython version where one of
the version-dependent names (`__or__`, `__getstate__`,
`__type_params__`, `__firstlineno__`, `__static_attributes__`,
`__annotations__`) is absent, the real `getattr` takes the default just
like an unlisted name; all of them are dunder-shaped, and no theorem
below depends on the classification of any dunder name other than
`__doc__`, which exists in every version via the class's own
docstring.  (`__abstractmethods__` raises `AttributeError` on access,
so `getattr` takes the default for it exactly as for absent names.) -/
def inheritedFailingAttrs : List String :=
  ["__doc__", "__module__", "__qualname__", "__name__", "__dict__", "__weakref__",
   "__bases__", "__base__", "__mro__", "__flags__", "__basicsize__", "__itemsize__",
   "__dictoffset__", "__weakrefoffset__", "__text_signature__",
   "__call__", "__class__", "__init__", "__new__", "__str__", "__repr__", "__hash__",
   "__eq__", "__ne__", "__lt__", "__le__", "__gt__", "__ge__",
   "__setattr__", "__delattr__", "__getattribute__",
   "__reduce__", "__reduce_ex__", "__getstate__", "__sizeof__", "__dir__", "__format__",
   "__init_subclass__", "__subclasshook__", "__instancecheck__", "__subclasscheck__",
   "__or__", "__ror__", "__annotations__", "__type_params__",
   "__firstlineno__", "__static_attributes__"]

/-- `getattr(StylePresets, name, …)` without the default: `some` exactly
when the class has the attribute — the four preset static methods plus
the attributes inherited from `object`/`type` enumerated above. -/
def stylePresetsAttr (name : String) : Option StyleAttr :=
  if name = "modern" then some (StyleAttr.preset modernPlan)
  else if name = "vintage" then some (StyleAttr.preset vintagePlan)
  else if name = "minimalist" then some (StyleAttr.preset minimalistPlan)
  else if name = "bold" then some (StyleAttr.preset boldPlan)
  else if name ∈ inheritedContainerAttrs then some StyleAttr.inheritedContainer
  else if name ∈ inheritedFailingAttrs then some StyleAttr.inheritedFailing
  else none

/-- The value of `style_preset` in `generate_banner` after
`getattr(StylePresets, style, StylePresets.modern)()`: either a plan
dictionary, or a non-dictionary container on which every key-membership
test is false. -/
inductive ResolvedStyle where
  | plan (p : StylePlan)
  | nonPlan

/-- Calling the object found by `getattr(StylePresets, style,
StylePresets.modern)` (`app.py` line 70). -/
def resolveCall : Option StyleAttr → Except PyError ResolvedStyle
  | some (StyleAttr.preset p) => Except.ok (ResolvedStyle.plan p)
  | some StyleAttr.inheritedContainer => Except.ok ResolvedStyle.nonPlan
  | some StyleAttr.inheritedFailing =>
      Except.error (PyError.typeError "object is not callable")
  | none => Except.ok (ResolvedStyle.plan modernPlan)

/-- `'gradient' in style_preset` and the corresponding subscript. -/
def planGradient : ResolvedStyle → Option Params
  | ResolvedStyle.plan p => p.gradient
  | ResolvedStyle.nonPlan => none

/-- `'texture' in style_preset` and the corresponding subscript. -/
def planTexture : ResolvedStyle → Option Params
  | ResolvedStyle.plan p => p.texture
  | ResolvedStyle.nonPlan => none

/-- `'overlay' in style_preset` and the corresponding subscript. -/
def planOverlay : ResolvedStyle → Option Params
  | ResolvedStyle.plan p => p.overlay
  | ResolvedStyle.nonPlan => none

/-- `'effects' in style_preset` and the corresponding subscript. -/
def planEffects : ResolvedStyle → Option (List (String × Params))
  | ResolvedStyle.plan p => p.effects
  | ResolvedStyle.nonPlan => none

/-- Keyword-argument binding of `transformer.apply_gradient(**kw)` against
`def apply_gradient(self, start_color, end_color, direction='horizontal')`:
an unexpected key or a missing required argument raises `TypeError`. -/
def applyGradientKw (kw : Params) (t : Transformer) : Except PyError Transformer :=
  if kw.all (fun e => e.1 == "start_color" || e.1 == "end_color" || e.1 == "direction") then
    match (kw.find? (fun e => e.1 == "start_color")), (kw.find? (fun e => e.1 == "end_color")) with
    | some (_, PVal.strV s), some (_, PVal.strV e) =>
        applyGradientS s e (getStr kw "direction" "horizontal") t
    | _, _ => Except.error (PyError.typeError "apply_gradient() missing required argument")
  else Except.error (PyError.typeError "apply_gradient() got an unexpected keyword argument")

/-- Keyword-argument binding of `transformer.apply_texture(**kw)` against
`def apply_texture(self, texture_type='noise', opacity=0.2)`. -/
def applyTextureKw (B : BlurFn) (rng : TexRng) (kw : Params) (t : Transformer) :
    Except PyError Transformer :=
  if kw.all (fun e => e.1 == "texture_type" || e.1 == "opacity") then
    Except.ok (applyTextureC B rng (getStr kw "texture_type" "noise") (getNum kw "opacity" (1/5)) t)
  else Except.error (PyError.typeError "apply_texture() got an unexpected keyword argument")

/-- Keyword-argument binding of `transformer.apply_overlay(**kw)` against
`def apply_overlay(self, color, opacity=0.3)`. -/
def applyOverlayKw (kw : Params) (t : Transformer) : Except PyError Transformer :=
  if kw.all (fun e => e.1 == "color" || e.1 == "opacity") then
    match kw.find? (fun e => e.1 == "color") with
    | some (_, PVal.strV c) => applyOverlayS c (getNum kw "opacity" (3/10)) t
    | _ => Except.error (PyError.typeError "apply_overlay() missing required argument")
  else Except.error (PyError.typeError "apply_overlay() got an unexpected keyword argument")

/-- `validate_banner_request` after field extraction and `int` conversion
(`app.py` 38-54): rejects non-positive dimensions, then dimensions above
the configured maximum of 4000. -/
def validateBannerRequest (w h : ℤ) : Except PyError (ℤ × ℤ) :=
  if w ≤ 0 ∨ h ≤ 0 then
    Except.error (PyError.valueError "Width and height must be positive numbers")
  else if 4000 < w ∨ 4000 < h then
    Except.error (PyError.valueError "Maximum dimensions exceeded (4000x4000)")
  else Except.ok (w, h)

/-- The core of the `/generate-banner` route (`app.py` 56-94): validate the
dimensions (before any buffer is allocated), create the fully
transparent white canvas, resolve the style via `getattr` with default
`StylePresets.modern`, and run the fixed stage order
gradient → texture → overlay → effects.  The route maps a `ValueError`
to HTTP 400 and any other exception to HTTP 500. -/
def generateBannerCore (B : BlurFn) (rng : TexRng) (w h : ℤ) (style : String) :
    Except PyError (Img × ℤ × ℤ) := do
  let _ ← validateBannerRequest w h
  let t0 := mkTransformer (imageNew w.toNat h.toNat ⟨255, 255, 255, 0⟩)
  let res ← resolveCall (stylePresetsAttr style)
  let t1 ← match planGradient res with
    | some kw => applyGradientKw kw t0
    | none => Except.ok t0
  let t2 ← match planTexture res with
    | some kw => applyTextureKw B rng kw t1
    | none => Except.ok t1
  let t3 ← match planOverlay res with
    | some kw => applyOverlayKw kw t2
    | none => Except.ok t2
  let t4 ← match planEffects res with
    | some effs => applyEffectsList B effs t3
    | none => Except.ok t3
  Except.ok (t4.image, w, h)

/-- `helpers.get_banner_style_config` (`helpers.py` 176-215): a plain
dictionary lookup `styles.get(style, styles['modern'])`. -/
def getBannerStyleConfig (style : String) : Params :=
  let modernCfg : Params :=
    [("background_color", PVal.strV "#4361ee"), ("gradient", PVal.boolV true),
     ("gradient_colors", PVal.strV "#4361ee,#3f37c9"), ("shadow", PVal.boolV true),
     ("border_radius", PVal.intV 10)]
  if style = "modern" then modernCfg
  else if style = "vintage" then
    [("background_color", PVal.strV "#f4a261"), ("texture", PVal.boolV true),
     ("border", PVal.boolV true), ("border_color", PVal.strV "#e76f51"),
     ("border_width", PVal.intV 5)]
  else if style = "minimalist" then
    [("background_color", PVal.strV "#ffffff"), ("stroke", PVal.boolV true),
     ("stroke_color", PVal.strV "#2b2d42"), ("stroke_width", PVal.intV 2)]
  else if style = "bold" then
    [("background_color", PVal.strV "#2b2d42"), ("gradient", PVal.boolV true),
     ("gradient_colors", PVal.strV "#2b2d42,#8d99ae"), ("shadow", PVal.boolV true)]
  else modernCfg

/-- One channel of `helpers._interpolate_color` (`helpers.py` 273-275):
`int(c1 + factor * (c2 - c1))` — Python `int()` truncation, not
rounding. -/
def helperChannel (c1 c2 : Nat) (f : ℚ) : ℤ :=
  pyInt ((c1 : ℚ) + f * ((c2 : ℚ) - (c1 : ℚ)))

/-- The hex digit character produced by Python's `{:x}` formatting. -/
def hexChar (n : Nat) : Char :=
  if n < 10 then Char.ofNat ('0'.toNat + n) else Char.ofNat ('a'.toNat + n - 10)

/-- Python `f'{n:02x}'` for a byte value. -/
def toHex2 (n : Nat) : String :=
  String.mk [hexChar (n / 16 % 16), hexChar (n % 16)]

/-- `helpers._interpolate_color(color1, color2, factor)` (`helpers.py`
256-277): parse both hex colors, truncate-interpolate each channel, and
re-format as `#rrggbb`. -/
def interpolateColorHex (color1 color2 : String) (f : ℚ) : Option String := do
  let c1 ← parseColor color1
  let c2 ← parseColor color2
  pure ("#" ++ toHex2 (helperChannel c1.r c2.r f).toNat
            ++ toHex2 (helperChannel c1.g c2.g f).toNat
            ++ toHex2 (helperChannel c1.b c2.b f).toNat)

/-- Written from the spec, for comparison with the code (§4.1): "each
output channel = `round(c1.channel*(1-factor) + c2.channel*factor)`,
clamped to [0,255]". -/
def specInterpChannel (c1 c2 : Nat) (f : ℚ) : ℤ :=
  max 0 (min 255 (round ((c1 : ℚ) * (1 - f) + (c2 : ℚ) * f)))

/-- Written from the spec, for comparison with the code (§4.3 / claim C3):
the gradient buffer composited as the TOP operand over the existing
canvas. -/
def specApplyGradientTop (c1 c2 : Color) (dir : String) (t : Transformer) : Transformer :=
  Transformer.mk t.width t.height
    (alphaComposite t.image (gradientImage c1 c2 dir t.width t.height))

/-- A fresh 1×1 canvas as created by `generate_banner`:
fully transparent white. -/
def freshT1 : Transformer :=
  mkTransformer (imageNew 1 1 ⟨255, 255, 255, 0⟩)

/-- A 1×1 canvas holding a single opaque red pixel. -/
def redT : Transformer :=
  mkTransformer (imageNew 1 1 ⟨255, 0, 0, 255⟩)

/-- A concrete field of random samples (every noise byte 200, every grain
sample 127, every paper base sample 220), used to instantiate theorems. -/
def constRng : TexRng :=
  TexRng.mk (fun _ _ => 200) (fun _ _ => 127) (fun _ _ => 220)

set_option maxRecDepth 10000

/-- Pillow's fast path: a fully transparent source pixel leaves the
destination pixel untouched (`AlphaComposite.c`: `if (src->a == 0) ...`). -/
theorem compositePx_transparent_src (d s : Pixel) (h : s.a = 0) : compositePx d s = d := by
  unfold compositePx
  rw [h]
  rfl

/-- The rounded division by 255 is exact on the fully-opaque coefficient:
`((s * 32640 + 16384) ≈/255) >> 7 = s` for every byte `s`. -/
theorem shift255_mix_id : ∀ s : Nat, s < 256 → shiftForDiv255 (s * 32640 + 16384) >>> 7 = s := by
  decide

/-- A fully opaque source pixel replaces the destination entirely: in
Pillow's integer arithmetic `coef2 = 0` and the rounded division is
exact. -/
theorem compositePx_opaque_src (d : Pixel) (r g b : Nat) (hr : r < 256) (hg : g < 256)
    (hb : b < 256) : compositePx d ⟨r, g, b, 255⟩ = ⟨r, g, b, 255⟩ := by
  unfold compositePx
  simp only [Nat.sub_self]
  simp only [Nat.mul_zero]
  simp only [Nat.add_zero]
  norm_num
  exact ⟨shift255_mix_id r hr, shift255_mix_id g hg, shift255_mix_id b hb, by decide⟩

/-- `int()` truncation of 0 is 0. -/
theorem pyIntNat_zero : pyIntNat 0 = 0 := by
  unfold pyIntNat pyInt
  rw [if_pos le_rfl, Int.floor_zero]
  rfl

/-- `int()` truncation is exact on a natural. -/
theorem pyIntNat_natCast (n : Nat) : pyIntNat (n : ℚ) = n := by
  unfold pyIntNat pyInt
  rw [if_pos (Nat.cast_nonneg n), Int.floor_natCast]
  omega

/-- Interpolating a channel with itself at factor 0 on the zero color is 0
for every factor. -/
theorem interpChannel_zero_zero (f : ℚ) : interpChannel 0 0 f = 0 := by
  unfold interpChannel
  have h : ((0 : Nat) : ℚ) * (1 - f) + ((0 : Nat) : ℚ) * f = 0 := by push_cast; ring
  rw [h]
  exact pyIntNat_zero

/-- Interpolating with factor 0 returns the start channel exactly
(the truncation is exact on a natural). -/
theorem interpChannel_zero (a b : Nat) : interpChannel a b 0 = a := by
  unfold interpChannel pyIntNat pyInt
  have h : (a : ℚ) * (1 - 0) + (b : ℚ) * 0 = (a : ℚ) := by ring
  rw [h, if_pos (Nat.cast_nonneg a), Int.floor_natCast]
  omega

/-- C7: an overlay with opacity 0 leaves every pixel exactly unchanged
(its buffer has alpha `int(255*0) = 0`, and Pillow's source-over copies
the destination verbatim under a transparent source), and an overlay
with opacity 1 makes every pixel exactly the overlay color at alpha 255
(its buffer has alpha 255, which replaces the destination exactly). -/
theorem c7_overlay_opacity_extremes (c : Color) (t : Transformer) (x y : Nat) :
    (applyOverlayC c 0 t).image.px x y = t.image.px x y ∧
    (c.r < 256 → c.g < 256 → c.b < 256 →
      (applyOverlayC c 1 t).image.px x y = ⟨c.r, c.g, c.b, 255⟩) := by
  constructor
  · show compositePx (t.image.px x y) ⟨c.r, c.g, c.b, pyIntNat (255 * 0)⟩ = t.image.px x y
    have h0 : pyIntNat (255 * 0) = 0 := by rw [mul_zero]; exact pyIntNat_zero
    rw [h0]
    exact compositePx_transparent_src _ _ rfl
  · intro hr hg hb
    show compositePx (t.image.px x y) ⟨c.r, c.g, c.b, pyIntNat (255 * 1)⟩ = ⟨c.r, c.g, c.b, 255⟩
    have h1 : pyIntNat (255 * 1) = 255 := by
      rw [mul_one]
      simpa using pyIntNat_natCast 255
    rw [h1]
    exact compositePx_opaque_src _ _ _ _ hr hg hb

/-- Witness for C7 at a concrete color and canvas. -/
theorem c7_overlay_opacity_extremes_witness :
    (applyOverlayC ⟨10, 20, 30⟩ 0 freshT1).image.px 0 0 = freshT1.image.px 0 0 ∧
    (applyOverlayC ⟨10, 20, 30⟩ 1 freshT1).image.px 0 0 = ⟨10, 20, 30, 255⟩ :=
  ⟨(c7_overlay_opacity_extremes ⟨10, 20, 30⟩ freshT1 0 0).1,
   (c7_overlay_opacity_extremes ⟨10, 20, 30⟩ freshT1 0 0).2 (by decide) (by decide) (by decide)⟩

/-- C8: the gradient factor is 0 for the sole column when `W = 1`
(horizontal) and for the sole row when `H = 1` (vertical): `np.linspace`
performs no division for a single sample, and a gradient run on a fresh
1×1 canvas yields exactly the start color at full alpha, for every
direction string. -/
theorem c8_gradient_degenerate_axis :
    (∀ h x y : Nat, gradFactor "horizontal" 1 h x y = 0) ∧
    (∀ w x y : Nat, gradFactor "vertical" w 1 x y = 0) ∧
    (∀ (c1 c2 : Color) (dir : String) (x y : Nat),
      (applyGradientC c1 c2 dir freshT1).image.px x y = ⟨c1.r, c1.g, c1.b, 255⟩) := by
  refine ⟨fun h x y => rfl, fun w x y => rfl, fun c1 c2 dir x y => ?_⟩
  show compositePx ((gradientImage c1 c2 dir 1 1).px x y) ⟨255, 255, 255, 0⟩
    = (⟨c1.r, c1.g, c1.b, 255⟩ : Pixel)
  rw [compositePx_transparent_src _ _ rfl]
  show (⟨interpChannel c1.r c2.r (gradFactor dir 1 1 x y),
         interpChannel c1.g c2.g (gradFactor dir 1 1 x y),
         interpChannel c1.b c2.b (gradFactor dir 1 1 x y), 255⟩ : Pixel)
    = ⟨c1.r, c1.g, c1.b, 255⟩
  have hf : gradFactor dir 1 1 x y = 0 := by
    unfold gradFactor linFactor
    split <;> rfl
  rw [hf, interpChannel_zero, interpChannel_zero, interpChannel_zero]

/-- Counterexample to C3 as stated: on a 1×1 opaque red canvas, a
black-to-black gradient leaves the canvas red (the code composites the
canvas over the gradient), whereas compositing the gradient buffer as
the top operand (the claim's reading, `specApplyGradientTop`) would make
the pixel black. -/
theorem c3_gradient_top_operand_counterexample :
    (applyGradientC ⟨0, 0, 0⟩ ⟨0, 0, 0⟩ "horizontal" redT).image.px 0 0 = ⟨255, 0, 0, 255⟩ ∧
    (specApplyGradientTop ⟨0, 0, 0⟩ ⟨0, 0, 0⟩ "horizontal" redT).image.px 0 0 = ⟨0, 0, 0, 255⟩ ∧
    (⟨255, 0, 0, 255⟩ : Pixel) ≠ ⟨0, 0, 0, 255⟩ := by
  have egrad : (gradientImage ⟨0, 0, 0⟩ ⟨0, 0, 0⟩ "horizontal" redT.width redT.height).px 0 0
      = ⟨0, 0, 0, 255⟩ := by
    show (⟨interpChannel 0 0 (gradFactor "horizontal" redT.width redT.height 0 0),
           interpChannel 0 0 (gradFactor "horizontal" redT.width redT.height 0 0),
           interpChannel 0 0 (gradFactor "horizontal" redT.width redT.height 0 0), 255⟩ : Pixel)
      = ⟨0, 0, 0, 255⟩
    rw [interpChannel_zero_zero]
  refine ⟨?_, ?_, by decide⟩
  · have e : (applyGradientC ⟨0, 0, 0⟩ ⟨0, 0, 0⟩ "horizontal" redT).image.px 0 0
        = compositePx
            ((gradientImage ⟨0, 0, 0⟩ ⟨0, 0, 0⟩ "horizontal" redT.width redT.height).px 0 0)
            (redT.image.px 0 0) := rfl
    rw [e, egrad]
    show compositePx ⟨0, 0, 0, 255⟩ ⟨255, 0, 0, 255⟩ = ⟨255, 0, 0, 255⟩
    exact compositePx_opaque_src _ _ _ _ (by decide) (by decide) (by decide)
  · have e : (specApplyGradientTop ⟨0, 0, 0⟩ ⟨0, 0, 0⟩ "horizontal" redT).image.px 0 0
        = compositePx (redT.image.px 0 0)
            ((gradientImage ⟨0, 0, 0⟩ ⟨0, 0, 0⟩ "horizontal" redT.width redT.height).px 0 0) := rfl
    rw [e, egrad]
    show compositePx ⟨255, 0, 0, 255⟩ ⟨0, 0, 0, 255⟩ = ⟨0, 0, 0, 255⟩
    exact compositePx_opaque_src _ _ _ _ (by decide) (by decide) (by decide)

/-- C3 amended: `apply_gradient` builds a full-canvas, fully opaque
gradient buffer, but composites it as the BOTTOM operand — the existing
canvas is the source of the source-over composite.  Consequently a
transparent canvas pixel shows the gradient, while an opaque canvas
pixel survives unchanged. -/
theorem c3_gradient_bottom_operand (c1 c2 : Color) (dir : String) (t : Transformer) (x y : Nat) :
    ((gradientImage c1 c2 dir t.width t.height).px x y).a = 255 ∧
    (applyGradientC c1 c2 dir t).image.px x y
      = compositePx ((gradientImage c1 c2 dir t.width t.height).px x y) (t.image.px x y) ∧
    ((t.image.px x y).a = 0 →
      (applyGradientC c1 c2 dir t).image.px x y
        = (gradientImage c1 c2 dir t.width t.height).px x y) ∧
    ((t.image.px x y).a = 255 → (t.image.px x y).r < 256 → (t.image.px x y).g < 256 →
      (t.image.px x y).b < 256 →
      (applyGradientC c1 c2 dir t).image.px x y = t.image.px x y) := by
  refine ⟨rfl, rfl, ?_, ?_⟩
  · intro h0
    exact compositePx_transparent_src _ _ h0
  · intro ha hr hg hb
    have hpx : t.image.px x y
        = ⟨(t.image.px x y).r, (t.image.px x y).g, (t.image.px x y).b, 255⟩ := by
      rw [← ha]
    show compositePx ((gradientImage c1 c2 dir t.width t.height).px x y) (t.image.px x y)
      = t.image.px x y
    rw [hpx]
    exact compositePx_opaque_src _ _ _ _ hr hg hb

/-- Witness for C3's amended theorem: the opaque red pixel survives the
gradient. -/
theorem c3_gradient_bottom_operand_witness :
    (applyGradientC ⟨0, 0, 0⟩ ⟨0, 0, 0⟩ "horizontal" redT).image.px 0 0 = redT.image.px 0 0 :=
  (c3_gradient_bottom_operand ⟨0, 0, 0⟩ ⟨0, 0, 0⟩ "horizontal" redT 0 0).2.2.2
    (by decide) (by decide) (by decide) (by decide)

/-- Counterexample to C4 as stated: at channels 0 and 255 with factor 1/2
(exact in binary floating point), the code's `int()` truncation gives
127 while the claimed `round` gives 128; `_interpolate_color` returns
`#7f7f7f`, not `#808080`. -/
theorem c4_interpolation_round_counterexample :
    helperChannel 0 255 (1/2) = 127 ∧
    specInterpChannel 0 255 (1/2) = 128 ∧
    interpolateColorHex "#000000" "#ffffff" (1/2) = some "#7f7f7f" := by
  have h127 : helperChannel 0 255 (1/2) = 127 := by
    unfold helperChannel pyInt
    have h : ((0 : Nat) : ℚ) + (1/2) * (((255 : Nat) : ℚ) - ((0 : Nat) : ℚ)) = 255/2 := by
      push_cast
      ring
    rw [h, if_pos (by norm_num : (0:ℚ) ≤ 255/2)]
    rw [Int.floor_eq_iff]
    norm_num
  refine ⟨h127, ?_, ?_⟩
  · unfold specInterpChannel
    have h : ((0 : Nat) : ℚ) * (1 - 1/2) + ((255 : Nat) : ℚ) * (1/2) = 255/2 := by
      push_cast
      ring
    rw [h, round_eq]
    have h2 : (255/2 + 1/2 : ℚ) = ((128 : Nat) : ℚ) := by norm_num
    rw [h2, Int.floor_natCast]
    norm_num
  · unfold interpolateColorHex
    rw [show parseColor "#000000" = some ⟨0, 0, 0⟩ from rfl,
        show parseColor "#ffffff" = some ⟨255, 255, 255⟩ from rfl]
    show some ("#" ++ toHex2 (helperChannel 0 255 (1/2)).toNat
              ++ toHex2 (helperChannel 0 255 (1/2)).toNat
              ++ toHex2 (helperChannel 0 255 (1/2)).toNat) = some "#7f7f7f"
    rw [h127]
    rfl

/-- C4 amended: for in-range channels and a factor in [0,1], each output
channel of both interpolation routines (`helpers._interpolate_color` and
the gradient fill) is the TRUNCATION (floor) of
`c1*(1-factor) + c2*factor`, which already lies in [0,255] — no rounding
and no clamping is performed or needed. -/
theorem c4_interpolation_truncates (c1 c2 : Nat) (f : ℚ) (h1 : c1 ≤ 255) (h2 : c2 ≤ 255)
    (hf0 : 0 ≤ f) (hf1 : f ≤ 1) :
    helperChannel c1 c2 f = ⌊(c1 : ℚ) * (1 - f) + (c2 : ℚ) * f⌋ ∧
    interpChannel c1 c2 f = (⌊(c1 : ℚ) * (1 - f) + (c2 : ℚ) * f⌋).toNat ∧
    0 ≤ helperChannel c1 c2 f ∧ helperChannel c1 c2 f ≤ 255 := by
  have hv0 : 0 ≤ (c1 : ℚ) * (1 - f) + (c2 : ℚ) * f := by
    have t1 : (0:ℚ) ≤ (c1 : ℚ) * (1 - f) := mul_nonneg (Nat.cast_nonneg c1) (by linarith)
    have t2 : (0:ℚ) ≤ (c2 : ℚ) * f := mul_nonneg (Nat.cast_nonneg c2) hf0
    linarith
  have hv255 : (c1 : ℚ) * (1 - f) + (c2 : ℚ) * f ≤ 255 := by
    have e1 : (c1 : ℚ) ≤ 255 := by exact_mod_cast h1
    have e2 : (c2 : ℚ) ≤ 255 := by exact_mod_cast h2
    have t1 : (c1 : ℚ) * (1 - f) ≤ 255 * (1 - f) :=
      mul_le_mul_of_nonneg_right e1 (by linarith)
    have t2 : (c2 : ℚ) * f ≤ 255 * f := mul_le_mul_of_nonneg_right e2 hf0
    linarith
  have harg : (c1 : ℚ) + f * ((c2 : ℚ) - (c1 : ℚ)) = (c1 : ℚ) * (1 - f) + (c2 : ℚ) * f := by
    ring
  have hh : helperChannel c1 c2 f = ⌊(c1 : ℚ) * (1 - f) + (c2 : ℚ) * f⌋ := by
    unfold helperChannel pyInt
    rw [harg, if_pos hv0]
  refine ⟨hh, ?_, ?_, ?_⟩
  · unfold interpChannel pyIntNat pyInt
    rw [if_pos hv0]
  · rw [hh]
    exact Int.floor_nonneg.mpr hv0
  · rw [hh]
    calc ⌊(c1 : ℚ) * (1 - f) + (c2 : ℚ) * f⌋ ≤ ⌊(255 : ℚ)⌋ := Int.floor_le_floor hv255
      _ = 255 := by norm_num

/-- Witness for C4's amended theorem at channels 0, 255 and factor 1/2. -/
theorem c4_interpolation_truncates_witness :
    helperChannel 0 255 (1/2) = ⌊((0 : Nat) : ℚ) * (1 - 1/2) + ((255 : Nat) : ℚ) * (1/2)⌋ ∧
    interpChannel 0 255 (1/2)
      = (⌊((0 : Nat) : ℚ) * (1 - 1/2) + ((255 : Nat) : ℚ) * (1/2)⌋).toNat ∧
    0 ≤ helperChannel 0 255 (1/2) ∧ helperChannel 0 255 (1/2) ≤ 255 :=
  c4_interpolation_truncates 0 255 (1/2) (by norm_num) (by norm_num) (by norm_num) (by norm_num)

/-- Pixel-level behavior of `apply_texture` for the `'noise'` kind: the
sampled luminance replicated into RGB at alpha `int(255*opacity)`,
composited over the canvas. -/
theorem applyTextureC_noise_px (B : BlurFn) (rng : TexRng) (op : ℚ) (t : Transformer)
    (x y : Nat) :
    (applyTextureC B rng "noise" op t).image.px x y
      = compositePx (t.image.px x y)
          ⟨rng.noise x y, rng.noise x y, rng.noise x y, pyIntNat (255 * op)⟩ := by
  simp only [applyTextureC, if_pos (rfl : "noise" = "noise")]
  rfl

/-- Pixel-level behavior of `apply_texture` for an unrecognized kind: the
blank black buffer at alpha `int(255*opacity)`, composited over the
canvas. -/
theorem applyTextureC_other_px (B : BlurFn) (rng : TexRng) (kind : String) (op : ℚ)
    (t : Transformer) (h1 : kind ≠ "noise") (h2 : kind ≠ "grain") (h3 : kind ≠ "paper")
    (x y : Nat) :
    (applyTextureC B rng kind op t).image.px x y
      = compositePx (t.image.px x y) ⟨0, 0, 0, pyIntNat (255 * op)⟩ := by
  simp only [applyTextureC, if_neg h1, if_neg h2, if_neg h3]
  rfl

/-- C5 amended: a texture kind other than noise/grain/paper does not fail,
but it does NOT fall back to the noise generator: the blank RGBA buffer
(black, fully transparent) is kept, `putalpha` sets its alpha to
`int(255*opacity)`, and this flat black layer is composited over the
canvas. -/
theorem c5_unknown_texture_black_fallback (B : BlurFn) (rng : TexRng) (kind : String)
    (op : ℚ) (t : Transformer) (h1 : kind ≠ "noise") (h2 : kind ≠ "grain")
    (h3 : kind ≠ "paper") (x y : Nat) :
    (applyTextureC B rng kind op t).image.px x y
      = compositePx (t.image.px x y) ⟨0, 0, 0, pyIntNat (255 * op)⟩ :=
  applyTextureC_other_px B rng kind op t h1 h2 h3 x y

/-- Witness for C5's amended theorem at the unknown kind `"swirl"`. -/
theorem c5_unknown_texture_black_fallback_witness :
    (applyTextureC idBlur constRng "swirl" (1/5) freshT1).image.px 0 0
      = compositePx (freshT1.image.px 0 0) ⟨0, 0, 0, pyIntNat (255 * (1/5))⟩ :=
  c5_unknown_texture_black_fallback idBlur constRng "swirl" (1/5) freshT1
    (by decide) (by decide) (by decide) 0 0

/-- Counterexample to C5 as stated: with every noise sample equal to 200,
the unknown kind `"swirl"` produces the flat black pixel (0,0,0,51) on a
fresh canvas, while the noise generator would produce (200,200,200,51) —
the fallback is not the noise generator. -/
theorem c5_unknown_texture_not_noise_counterexample :
    (applyTextureC idBlur constRng "swirl" (1/5) freshT1).image.px 0 0 = ⟨0, 0, 0, 51⟩ ∧
    (applyTextureC idBlur constRng "noise" (1/5) freshT1).image.px 0 0 = ⟨200, 200, 200, 51⟩ ∧
    (⟨0, 0, 0, 51⟩ : Pixel) ≠ ⟨200, 200, 200, 51⟩ := by
  have ha : pyIntNat (255 * (1/5)) = 51 := by
    have h1 : (255 * (1/5) : ℚ) = ((51 : Nat) : ℚ) := by norm_num
    rw [h1, pyIntNat_natCast]
  have hfresh : freshT1.image.px 0 0 = ⟨255, 255, 255, 0⟩ := rfl
  refine ⟨?_, ?_, by decide⟩
  · rw [applyTextureC_other_px idBlur constRng "swirl" (1/5) freshT1
        (by decide) (by decide) (by decide) 0 0, hfresh, ha]
    decide
  · rw [applyTextureC_noise_px idBlur constRng (1/5) freshT1 0 0,
        show constRng.noise 0 0 = 200 from rfl, hfresh, ha]
    decide

/-- C9: every `BannerTransformer` operation preserves the canvas
dimensions.  `hB` is the library guarantee that `GaussianBlur` preserves
the image size; `ht` says the current image still has the
construction-time size (true at construction and preserved by each
operation, so the invariant propagates through any chain). -/
theorem c9_operations_preserve_dimensions (B : BlurFn)
    (hB : ∀ (r : ℤ) (img : Img), (B r img).width = img.width ∧ (B r img).height = img.height)
    (t : Transformer) (ht : t.image.width = t.width ∧ t.image.height = t.height) :
    (∀ (c1 c2 : Color) (dir : String),
      (applyGradientC c1 c2 dir t).image.width = t.width ∧
      (applyGradientC c1 c2 dir t).image.height = t.height) ∧
    (∀ (rng : TexRng) (kind : String) (op : ℚ),
      (applyTextureC B rng kind op t).image.width = t.width ∧
      (applyTextureC B rng kind op t).image.height = t.height) ∧
    (∀ (c : Color) (op : ℚ),
      (applyOverlayC c op t).image.width = t.width ∧
      (applyOverlayC c op t).image.height = t.height) ∧
    (∀ r : ℤ,
      (applyBlurC B r t).image.width = t.width ∧
      (applyBlurC B r t).image.height = t.height) ∧
    (∀ (off : ℤ × ℤ) (c : Color) (br : ℤ),
      (applyDropShadowC B off c br t).image.width = t.width ∧
      (applyDropShadowC B off c br t).image.height = t.height) ∧
    (∀ (n : ℤ) (c : Color),
      (applyBorderC n c t).image.width = t.width ∧
      (applyBorderC n c t).image.height = t.height) ∧
    (∀ (sp : ℤ) (i : ℚ),
      (applyGlowC B sp i t).image.width = t.width ∧
      (applyGlowC B sp i t).image.height = t.height) := by
  obtain ⟨htw, hth⟩ := ht
  refine ⟨fun c1 c2 dir => ⟨rfl, rfl⟩,
          fun rng kind op => ⟨htw, hth⟩,
          fun c op => ⟨htw, hth⟩,
          fun r => ⟨(hB r t.image).1.trans htw, (hB r t.image).2.trans hth⟩,
          fun off c br => ⟨htw, hth⟩,
          fun n c => ⟨htw, hth⟩,
          fun sp i => ⟨((hB sp t.image).1).trans htw, ((hB sp t.image).2).trans hth⟩⟩

/-- Witness for C9: each operation applied on a concrete 1×1 canvas with
the identity blur keeps width 1. -/
theorem c9_operations_preserve_dimensions_witness :
    (applyGradientC ⟨0, 0, 0⟩ ⟨255, 255, 255⟩ "horizontal" freshT1).image.width = 1 ∧
    (applyTextureC idBlur constRng "noise" (1/5) freshT1).image.width = 1 ∧
    (applyOverlayC ⟨1, 2, 3⟩ (1/2) freshT1).image.width = 1 ∧
    (applyBlurC idBlur 2 freshT1).image.width = 1 ∧
    (applyDropShadowC idBlur (5, 5) ⟨0, 0, 0⟩ 3 freshT1).image.width = 1 ∧
    (applyBorderC 2 ⟨0, 0, 0⟩ freshT1).image.width = 1 ∧
    (applyGlowC idBlur 20 (1/2) freshT1).image.width = 1 := by
  have h := c9_operations_preserve_dimensions idBlur (fun r img => ⟨rfl, rfl⟩)
    freshT1 ⟨rfl, rfl⟩
  exact ⟨(h.1 ⟨0, 0, 0⟩ ⟨255, 255, 255⟩ "horizontal").1,
         (h.2.1 constRng "noise" (1/5)).1,
         (h.2.2.1 ⟨1, 2, 3⟩ (1/2)).1,
         (h.2.2.2.1 2).1,
         (h.2.2.2.2.1 (5, 5) ⟨0, 0, 0⟩ 3).1,
         (h.2.2.2.2.2.1 2 ⟨0, 0, 0⟩).1,
         (h.2.2.2.2.2.2 20 (1/2)).1⟩

/-- C10: an `apply_effects` entry whose name is none of blur, shadow,
border, glow falls through the `if`/`elif` chain: it raises no error,
returns the transformer unchanged, and splicing such an entry anywhere
into an effect chain does not change the chain's result. -/
theorem c10_unknown_effect_skipped (B : BlurFn) (t : Transformer) (name : String) (p : Params)
    (h : name ∉ (["blur", "shadow", "border", "glow"] : List String)) :
    applyEffectEntry B t (name, p) = Except.ok t ∧
    (∀ (pre post : List (String × Params)) (u : Transformer),
      applyEffectsList B (pre ++ (name, p) :: post) u = applyEffectsList B (pre ++ post) u) := by
  have h1 : name ≠ "blur" := fun e => h (by rw [e]; simp)
  have h2 : name ≠ "shadow" := fun e => h (by rw [e]; simp)
  have h3 : name ≠ "border" := fun e => h (by rw [e]; simp)
  have h4 : name ≠ "glow" := fun e => h (by rw [e]; simp)
  have step : ∀ u : Transformer, applyEffectEntry B u (name, p) = Except.ok u := by
    intro u
    unfold applyEffectEntry
    rw [if_neg h1, if_neg h2, if_neg h3, if_neg h4]
  refine ⟨step t, ?_⟩
  intro pre
  induction pre with
  | nil =>
    intro post u
    show (applyEffectEntry B u (name, p)).bind (applyEffectsList B post)
      = applyEffectsList B post u
    rw [step u]
    rfl
  | cons e rest ih =>
    intro post u
    show (applyEffectEntry B u e).bind (applyEffectsList B (rest ++ (name, p) :: post))
      = (applyEffectEntry B u e).bind (applyEffectsList B (rest ++ post))
    cases he : applyEffectEntry B u e with
    | error err => rfl
    | ok u' =>
      show applyEffectsList B (rest ++ (name, p) :: post) u'
        = applyEffectsList B (rest ++ post) u'
      exact ih post u'

/-- Witness for C10 at the unknown effect name `"sepia"`. -/
theorem c10_unknown_effect_skipped_witness :
    applyEffectEntry idBlur freshT1 ("sepia", ([] : Params)) = Except.ok freshT1 :=
  (c10_unknown_effect_skipped idBlur freshT1 "sepia" ([] : Params) (by decide)).1

/-- C6: a request with a non-positive dimension or a dimension above the
configured maximum of 4000 fails in `validate_banner_request` with the
dimension `ValueError` (the error the spec names
`InvalidDimensionsError`; the route returns it as HTTP 400), and the
error is produced before the canvas is created — the error result
carries no image. -/
theorem c6_invalid_dimensions_rejected (B : BlurFn) (rng : TexRng) (w h : ℤ) (style : String)
    (hbad : w ≤ 0 ∨ h ≤ 0 ∨ 4000 < w ∨ 4000 < h) :
    generateBannerCore B rng w h style
      = Except.error (PyError.valueError
          (if w ≤ 0 ∨ h ≤ 0 then "Width and height must be positive numbers"
           else "Maximum dimensions exceeded (4000x4000)")) := by
  unfold generateBannerCore validateBannerRequest
  by_cases h1 : w ≤ 0 ∨ h ≤ 0
  · simp only [if_pos h1]
    rfl
  · have h2 : 4000 < w ∨ 4000 < h := by tauto
    simp only [if_neg h1, if_pos h2]
    rfl

/-- Witness for C6 at width 0 (and at height 5000, above the maximum). -/
theorem c6_invalid_dimensions_rejected_witness :
    generateBannerCore idBlur constRng 0 100 "modern"
      = Except.error (PyError.valueError "Width and height must be positive numbers") ∧
    generateBannerCore idBlur constRng 400 5000 "modern"
      = Except.error (PyError.valueError "Maximum dimensions exceeded (4000x4000)") := by
  constructor
  · rw [c6_invalid_dimensions_rejected idBlur constRng 0 100 "modern" (Or.inl (by norm_num))]
    rfl
  · rw [c6_invalid_dimensions_rejected idBlur constRng 400 5000 "modern"
        (Or.inr (Or.inr (Or.inr (by norm_num))))]
    rfl

/-- C2 at its failing input: the vintage preset stores its texture
configuration under the key `'type'`, but `apply_texture`'s parameter is
named `texture_type`, so `transformer.apply_texture(**{'type': 'paper',
'opacity': 0.2})` raises `TypeError` — the vintage run fails (HTTP 500)
instead of applying its declared overlay, paper texture and border. -/
theorem c2_vintage_preset_type_error (B : BlurFn) (rng : TexRng) :
    generateBannerCore B rng 400 200 "vintage"
      = Except.error (PyError.typeError "apply_texture() got an unexpected keyword argument") :=
  rfl

/-- Counterexample to C1 as stated: `"__doc__"` is not one of the four
preset names, yet `getattr(StylePresets, "__doc__", StylePresets.modern)`
finds the class docstring (a string), so calling it raises `TypeError`
and the run fails with HTTP 500 instead of resolving to the modern plan
— while the run with style `"modern"` succeeds. -/
theorem c1_getattr_counterexample :
    ("__doc__" ∉ (["modern", "vintage", "minimalist", "bold"] : List String)) ∧
    resolveCall (stylePresetsAttr "__doc__")
      = Except.error (PyError.typeError "object is not callable") ∧
    generateBannerCore idBlur constRng 400 200 "__doc__"
      = Except.error (PyError.typeError "object is not callable") ∧
    (generateBannerCore idBlur constRng 400 200 "modern").toOption.isSome = true := by
  refine ⟨by decide, rfl, rfl, rfl⟩

/-- Every inherited attribute name of a plain Python class is either
`mro` or dunder-shaped: checked by evaluation over the two enumerated
lists. -/
theorem inheritedAttrs_shape :
    (∀ s ∈ inheritedContainerAttrs, s = "mro" ∨ isDunderName s = true) ∧
    (∀ s ∈ inheritedFailingAttrs, isDunderName s = true) :=
  ⟨by decide, by decide⟩

/-- C1 amended: for every style name that is not one of the four preset
names, not `mro`, and not dunder-shaped, `getattr` finds no attribute
on `StylePresets` (every attribute a plain Python class has beyond its
own definitions is `mro` or a dunder), so the default applies: the
style resolves to the modern plan and the pipeline output is identical
to running `"modern"` at the same width/height;
`helpers.get_banner_style_config`, a plain dictionary lookup, falls
back to the modern configuration for every such name.  Names that ARE
attributes do not all resolve to modern: `mro`, `__subclasses__` and
`__prepare__` yield a blank canvas, and the other inherited attributes
end in a `TypeError` (HTTP 500), as the counterexample shows for
`__doc__`. -/
theorem c1_unknown_style_resolves_modern (name : String)
    (hp : name ∉ (["modern", "vintage", "minimalist", "bold"] : List String))
    (hm : name ≠ "mro") (hd : isDunderName name = false) :
    stylePresetsAttr name = none ∧
    resolveCall (stylePresetsAttr name) = Except.ok (ResolvedStyle.plan modernPlan) ∧
    (∀ (B : BlurFn) (rng : TexRng) (w hgt : ℤ),
      generateBannerCore B rng w hgt name = generateBannerCore B rng w hgt "modern") ∧
    getBannerStyleConfig name = getBannerStyleConfig "modern" := by
  have h1 : ¬ (name = "modern") := fun e => hp (by rw [e]; simp)
  have h2 : ¬ (name = "vintage") := fun e => hp (by rw [e]; simp)
  have h3 : ¬ (name = "minimalist") := fun e => hp (by rw [e]; simp)
  have h4 : ¬ (name = "bold") := fun e => hp (by rw [e]; simp)
  have hc : ¬ (name ∈ inheritedContainerAttrs) := by
    intro hmem
    rcases inheritedAttrs_shape.1 name hmem with h | h
    · exact hm h
    · rw [hd] at h
      exact Bool.noConfusion h
  have hf : ¬ (name ∈ inheritedFailingAttrs) := by
    intro hmem
    have h := inheritedAttrs_shape.2 name hmem
    rw [hd] at h
    exact Bool.noConfusion h
  have h : stylePresetsAttr name = none := by
    unfold stylePresetsAttr
    rw [if_neg h1, if_neg h2, if_neg h3, if_neg h4, if_neg hc, if_neg hf]
  refine ⟨h, by rw [h]; rfl, ?_, ?_⟩
  · intro B rng w hgt
    unfold generateBannerCore
    rw [h]
    rfl
  · simp only [getBannerStyleConfig, if_neg h1, if_neg h2, if_neg h3, if_neg h4]
    rfl

/-- Witness for C1's amended theorem at the name `"nonexistent-style"`. -/
theorem c1_unknown_style_resolves_modern_witness :
    stylePresetsAttr "nonexistent-style" = none ∧
    resolveCall (stylePresetsAttr "nonexistent-style")
      = Except.ok (ResolvedStyle.plan modernPlan) ∧
    generateBannerCore idBlur constRng 400 200 "nonexistent-style"
      = generateBannerCore idBlur constRng 400 200 "modern" ∧
    getBannerStyleConfig "nonexistent-style" = getBannerStyleConfig "modern" := by
  have h := c1_unknown_style_resolves_modern "nonexistent-style"
    (by decide) (by decide) (by decide)
  exact ⟨h.1, h.2.1, h.2.2.1 idBlur constRng 400 200, h.2.2.2⟩
